import Mathlib

/-!
Shallow embedding of the `ddns` program (src/src/main.rs).

The program has four parts:
  * `wan_ip` — a two-hop DNS resolution of the caller's WAN IP
    (A query for ns1.google.com at 8.8.8.8:53, then a TXT query for
    o-o.myaddr.1.google.com at the resolved nameserver);
  * `get_cloudflare_ddns_records` — list the zone's records and keep those
    whose comment equals the configured marker;
  * `set_cloudflare_dns_records` — PUT each record back, sequentially,
    failing the run on the first error;
  * `_main` / `main` — orchestration with a cache-file based change detector.

Effects (UDP exchanges, HTTP calls, file reads/writes) are passed in as
explicit environment values; each function additionally returns a trace of
the externally visible requests it issued, so that claims about which
requests are (not) made become statements about the trace.
Machine integers (`u32` ttl, TXT record bytes) are modelled as `Nat`; no
arithmetic is performed on them.  Library functions not part of the
repository (`String::from_utf8`, `IpAddr::from_str`) are abstract
parameters.
-/

namespace Ddns

/-- DNS query types used by the program (`rustdns::Type`). -/
inductive QType where
  | A
  | TXT
deriving DecidableEq, Repr

/-- A DNS question; the class is always `Internet` and is omitted. -/
structure Question where
  qname : String
  qtype : QType
deriving DecidableEq, Repr

/-- `rustdns::Message`, restricted to the question list the program builds. -/
structure Message where
  questions : List Question
deriving DecidableEq, Repr

/-- `rustdns::Message::default()`. -/
def Message.default : Message := ⟨[]⟩

/-- `Message::add_question(name, type, Class::Internet)`. -/
def Message.add_question (m : Message) (qname : String) (qtype : QType) : Message :=
  ⟨m.questions ++ [⟨qname, qtype⟩]⟩

/-- `rustdns::Resource`, restricted to the variants the program matches on:
`A` carries an IPv4 address, modelled by its display string (the program only
uses it to format the `ip:53` server address); `TXT` carries the list of data
chunks, each a list of bytes; every other variant is collapsed into `other`. -/
inductive Resource where
  | A (ip : String)
  | TXT (chunks : List (List Nat))
  | other
deriving DecidableEq, Repr

/-- An entry of `Message.answers`; only its `resource` is inspected. -/
structure Answer where
  resource : Resource
deriving DecidableEq, Repr

/-- The UDP client environment: `Client::new(addr)` followed by
`exchange(query)`, combined into one call.  An error value stands for either
a connection or an exchange failure (the program propagates both
identically, as already-formatted strings); a success carries the answer
records of the response. -/
abbrev Exchanger := String → Message → Except String (List Answer)

/-- The IP extracted from a single answer, when it is an A record:
`match record.resource { Resource::A(ip) => Some(ip), _ => None }`. -/
def aValue (record : Answer) : Option String :=
  match record.resource with
  | .A ip => some ip
  | _ => none

/-- The text extracted from a single answer, when it is a TXT record whose
last data chunk decodes as UTF-8:
`Resource::TXT(mut txt) => txt.0.pop().map(String::from_utf8).map(Result::ok).flatten()`
(`Vec::pop` removes and returns the last element). -/
def txtValue (utf8 : List Nat → Option String) (record : Answer) : Option String :=
  match record.resource with
  | .TXT chunks => chunks.getLast?.bind utf8
  | _ => none

/-- `.answers.into_iter().filter_map(A-extraction).next()`. -/
def firstA (answers : List Answer) : Option String :=
  (answers.filterMap aValue).head?

/-- `.answers.into_iter().filter_map(TXT-extraction).next()`. -/
def firstTxt (utf8 : List Nat → Option String) (answers : List Answer) : Option String :=
  (answers.filterMap (txtValue utf8)).head?

/-- The first query the program builds (src/src/main.rs lines 6–7): a default
message with one question, an A record for ns1.google.com. -/
def nsQuery : Message := Message.default.add_question "ns1.google.com" QType.A

/-- The second query the program builds (src/src/main.rs lines 24–29): a
default message with one question, a TXT record for o-o.myaddr.1.google.com. -/
def txtQuery : Message := Message.default.add_question "o-o.myaddr.1.google.com" QType.TXT

/-- `fn wan_ip() -> Result<IpAddr, String>`, src/src/main.rs lines 4–51.
`exch` is the UDP environment, `utf8` models `String::from_utf8` and
`parseIp` models `IpAddr::from_str` (returning `none` exactly when the Rust
function returns `Err`); `α` stands for `IpAddr`.  The second component of
the result is the trace of `(server address, query)` exchanges issued, in
order. -/
def wan_ip {α : Type} (exch : Exchanger) (utf8 : List Nat → Option String)
    (parseIp : String → Option α) : Except String α × List (String × Message) :=
  match exch "8.8.8.8:53" nsQuery with
  | .error e => (.error e, [("8.8.8.8:53", nsQuery)])
  | .ok answers1 =>
    match firstA answers1 with
    | none => (.error "No A record found for ns1.google.com", [("8.8.8.8:53", nsQuery)])
    | some ns1_ip =>
      match exch (ns1_ip ++ ":53") txtQuery with
      | .error e => (.error e, [("8.8.8.8:53", nsQuery), (ns1_ip ++ ":53", txtQuery)])
      | .ok answers2 =>
        match firstTxt utf8 answers2 with
        | none =>
          (.error "No TXT record found for o-o.myaddr.1.google.com",
            [("8.8.8.8:53", nsQuery), (ns1_ip ++ ":53", txtQuery)])
        | some res =>
          match parseIp res with
          | none =>
            (.error ("Error parsing ip from dig: " ++ res),
              [("8.8.8.8:53", nsQuery), (ns1_ip ++ ":53", txtQuery)])
          | some ip => (.ok ip, [("8.8.8.8:53", nsQuery), (ns1_ip ++ ":53", txtQuery)])

/-- `struct Config` (src/src/main.rs lines 53–58); `Rc<str>` fields are
modelled as `String`. -/
structure Config where
  cloudflare_api_key : String
  cloudflare_zone_id : String
  ddns_comment : String
deriving DecidableEq, Repr

/-- `struct CloudflareDnsRecord` (src/src/main.rs lines 60–69); `Rc<str>` is
modelled as `String` and the `u32` ttl as `Nat` (no arithmetic touches it). -/
structure CloudflareDnsRecord where
  id : String
  name : String
  comment : Option String
  content : String
  proxied : Bool
  ttl : Nat
  type : String
deriving DecidableEq, Repr

/-- `fn get_cloudflare_ddns_records` (src/src/main.rs lines 71–96).
`response` is the environment's combined outcome of the authenticated
GET and of JSON-decoding its body into the `result` vector; the function
filters it by `record.comment.as_ref() == Some(&config.ddns_comment)`. -/
def get_cloudflare_ddns_records (config : Config)
    (response : Except String (List CloudflareDnsRecord)) :
    Except String (List CloudflareDnsRecord) :=
  match response with
  | .error e => .error e
  | .ok result =>
    .ok (result.filter fun record => record.comment == some config.ddns_comment)

/-- The PUT environment: per-record outcome of the authenticated update
request, an error or the response body text (`into_string`). -/
abbrev PutEnv := CloudflareDnsRecord → Except String String

/-- `fn set_cloudflare_dns_records` (src/src/main.rs lines 98–118): one PUT
per record, sequentially, returning at the first failure.  The second
component is the trace of records for which a PUT request was issued, in
order. -/
def set_cloudflare_dns_records (dns_records : List CloudflareDnsRecord)
    (put : PutEnv) : Except String Unit × List CloudflareDnsRecord :=
  match dns_records with
  | [] => (.ok (), [])
  | record :: rest =>
    match put record with
    | .error e => (.error e, [record])
    | .ok _ =>
      let t := set_cloudflare_dns_records rest put
      (t.1, record :: t.2)

/-- The effect environment of one run of `_main`:
  * `wanIp` — outcome of `wan_ip()?.to_string()`, the resolved address
    already in textual form;
  * `cacheRead` — outcome of `std::fs::read_to_string` on
    `<config_dir>/wan_ip.cache`, with the io error's text on failure;
  * `configLoad` — combined outcome of opening and JSON-decoding
    `<config_dir>/config.json`, errors already formatted;
  * `listResponse` — outcome of the zone listing request (see
    `get_cloudflare_ddns_records`);
  * `put` — outcome of each update request;
  * `cacheWrite` — outcome of `std::fs::write` of the cache file. -/
structure MainEnv where
  wanIp : Except String String
  cacheRead : Except String String
  configLoad : Except String Config
  listResponse : Except String (List CloudflareDnsRecord)
  put : PutEnv
  cacheWrite : Except String Unit

/-- Externally visible actions of one run: whether config.json was opened,
whether the zone listing request was made, which records had update
requests issued (in order), and the text written to the cache file when a
write was performed. -/
structure Trace where
  configOpened : Bool
  listCalled : Bool
  updatesIssued : List CloudflareDnsRecord
  cacheWriteAttempted : Option String
deriving DecidableEq, Repr

/-- The change-detection check of src/src/main.rs lines 136–141:
`if let Ok(s) = read_to_string(..) { if *s == *wan_ip { return Ok(()) } }`;
`true` exactly when the cache read succeeded and its content equals the
resolved address's text. -/
def unchangedCheck (cacheRead : Except String String) (wan_ip : String) : Bool :=
  match cacheRead with
  | .ok s => s == wan_ip
  | .error _ => false

/-- src/src/main.rs lines 159–166: push the content-rewritten records and, only
when every PUT succeeded, overwrite the cache file with the new IP text. -/
def updatePush (updated : List CloudflareDnsRecord) (env : MainEnv) (wan_ip : String) :
    Except String Unit × Trace :=
  match set_cloudflare_dns_records updated env.put with
  | (.error e, issued) => (.error e, ⟨true, true, issued, none⟩)
  | (.ok _, issued) =>
    match env.cacheWrite with
    | .error e =>
      (.error ("Error writing wan ip " ++ wan_ip ++ " to file: " ++ e),
        ⟨true, true, issued, some wan_ip⟩)
    | .ok _ => (.ok (), ⟨true, true, issued, some wan_ip⟩)

/-- src/src/main.rs lines 144–166: the update path taken after the change
detector found the IP changed (or unreadable cache): load config.json, list
and filter the zone's records, rewrite each record's content field to the
resolved address, push the updates and persist the cache. -/
def updateRun (env : MainEnv) (wan_ip : String) : Except String Unit × Trace :=
  match env.configLoad with
  | .error e => (.error e, ⟨true, false, [], none⟩)
  | .ok config =>
    match get_cloudflare_ddns_records config env.listResponse with
    | .error e => (.error e, ⟨true, true, [], none⟩)
    | .ok ddns_records =>
      updatePush (ddns_records.map fun record => { record with content := wan_ip })
        env wan_ip

/-- `fn _main() -> Result<(), String>` (src/src/main.rs lines 129–171),
paired with the trace of requests issued. -/
def _main (env : MainEnv) : Except String Unit × Trace :=
  match env.wanIp with
  | .error e => (.error e, ⟨false, false, [], none⟩)
  | .ok wan_ip =>
    if unchangedCheck env.cacheRead wan_ip then (.ok (), ⟨false, false, [], none⟩)
    else updateRun env wan_ip

/-- `fn main() -> ExitCode` (src/src/main.rs lines 173–181): exit code 0 on
success, 1 on failure, paired with the run's trace. -/
def main (env : MainEnv) : Nat × Trace :=
  match _main env with
  | (.ok _, t) => (0, t)
  | (.error _, t) => (1, t)

/-- The change detector did not hit: the cache read failed, or its content
differs from the resolved address. -/
def cacheMiss (env : MainEnv) (wan : String) : Prop :=
  match env.cacheRead with
  | .ok s => s ≠ wan
  | .error _ => True

instance (env : MainEnv) (wan : String) : Decidable (cacheMiss env wan) := by
  unfold cacheMiss
  cases env.cacheRead <;> infer_instance

/-- The change detector hit: resolution succeeded and the cache read
returned exactly the resolved address's text. -/
def cacheHit (env : MainEnv) : Prop :=
  match env.wanIp, env.cacheRead with
  | .ok w, .ok s => s = w
  | _, _ => False

/-- Modelled from the spec: the invocation of the external DNS-lookup
utility of Strategy A (§4.1), which is not present under src/ (src/src/main.rs
contains only Strategy B, `wan_ip`): a query type, the queried hostname, the
nameserver the query is directed at, the IPv4-transport-only flag, and the
terse-output flag. -/
structure DigInvocation where
  qtype : QType
  qname : String
  server : String
  ipv4Only : Bool
  short : Bool
deriving DecidableEq, Repr

/-- Modelled from the spec: Strategy A invokes the utility requesting a TXT
record for `o-o.myaddr.l.google.com` (first label ending in the letter l, as
the spec stresses), directed at `ns1.google.com`, IPv4 transport only, terse
answer. -/
def digInvocation : DigInvocation :=
  ⟨QType.TXT, "o-o.myaddr.l.google.com", "ns1.google.com", true, true⟩

/-- Modelled from the spec: Strategy A parses standard output by stripping a
trailing newline and a leading/trailing quote character before reading the
remainder as an IP literal. -/
def stripQuoted (s : String) : String :=
  let cs := s.toList
  let cs1 := if cs.getLast? = some '\n' then cs.dropLast else cs
  let cs2 := if cs1.getLast? = some '"' then cs1.dropLast else cs1
  String.mk (if cs2.head? = some '"' then cs2.drop 1 else cs2)

/-- Modelled from the spec: Strategy A, the external resolver subprocess
(§4.1), absent from src/.  The subprocess environment `run` yields either a
spawn failure or an exit status paired with the UTF-8 decoding of standard
output (`none` when stdout is not valid UTF-8 text).  Failure cases follow
the spec: spawn failure, non-zero exit status, non-UTF-8 output, or output
that does not parse as an IP address. -/
def wan_ip_dig {α : Type} (run : DigInvocation → Except String (Nat × Option String))
    (parseIp : String → Option α) : Except String α :=
  match run digInvocation with
  | .error e => .error e
  | .ok (status, out) =>
    if status ≠ 0 then .error "resolver exited with non-zero status"
    else
      match out with
      | none => .error "resolver output is not valid UTF-8"
      | some text =>
        match parseIp (stripQuoted text) with
        | none => .error ("Error parsing ip from dig: " ++ stripQuoted text)
        | some ip => .ok ip

/-- Answer lists with at least one TXT-type record, whatever its chunks. -/
def hasTxtAnswer (answers : List Answer) : Bool :=
  answers.any fun a =>
    match a.resource with
    | .TXT _ => true
    | _ => false

/-! ### Concrete fixtures used by witnesses and counterexamples -/

/-- A marker configuration with the spec's example marker text. -/
def cfgW : Config := ⟨"key", "zone", "ddns record"⟩

/-- A record carrying the configured marker comment. -/
def recMatch : CloudflareDnsRecord :=
  ⟨"id1", "a.example.com", some "ddns record", "198.51.100.1", false, 300, "A"⟩

/-- A record carrying a different comment. -/
def recOther : CloudflareDnsRecord :=
  ⟨"id2", "b.example.com", some "manual", "198.51.100.2", true, 120, "A"⟩

/-- A record with no comment at all. -/
def recNoComment : CloudflareDnsRecord :=
  ⟨"id3", "c.example.com", none, "198.51.100.3", false, 60, "A"⟩

/-- Second and third marked records, for the sequential-failure scenario. -/
def recMatch2 : CloudflareDnsRecord :=
  ⟨"id4", "d.example.com", some "ddns record", "198.51.100.4", false, 300, "A"⟩

def recMatch3 : CloudflareDnsRecord :=
  ⟨"id5", "e.example.com", some "ddns record", "198.51.100.5", false, 300, "A"⟩

/-- Environment where the cache already holds the resolved text; every later
effect is poisoned so that reaching it would fail the run. -/
def envC2 : MainEnv where
  wanIp := .ok "1.2.3.4"
  cacheRead := .ok "1.2.3.4"
  configLoad := .error "config poisoned"
  listResponse := .error "list poisoned"
  put := fun _ => .error "put poisoned"
  cacheWrite := .error "write poisoned"

/-- Environment for a first run: no cache, mixed-comment listing, all
requests succeed. -/
def envC1 : MainEnv where
  wanIp := .ok "203.0.113.7"
  cacheRead := .error "no cache"
  configLoad := .ok cfgW
  listResponse := .ok [recMatch, recOther, recNoComment]
  put := fun _ => .ok "ok"
  cacheWrite := .ok ()

/-- Environment with three marked records where the PUT of the second one
fails. -/
def envC3 : MainEnv where
  wanIp := .ok "203.0.113.7"
  cacheRead := .error "no cache"
  configLoad := .ok cfgW
  listResponse := .ok [recMatch, recMatch2, recMatch3]
  put := fun r => if r.id = "id4" then .error "update failed" else .ok "ok"
  cacheWrite := .ok ()

/-- Environment whose cache read fails with some io error text. -/
def envC5 : MainEnv where
  wanIp := .ok "203.0.113.7"
  cacheRead := .error "permission denied"
  configLoad := .ok cfgW
  listResponse := .ok [recMatch]
  put := fun _ => .ok "ok"
  cacheWrite := .ok ()

/-- Environment whose listing returns no record with the configured marker. -/
def envC8 : MainEnv where
  wanIp := .ok "203.0.113.7"
  cacheRead := .error "no cache"
  configLoad := .ok cfgW
  listResponse := .ok [recOther, recNoComment]
  put := fun _ => .error "put poisoned"
  cacheWrite := .ok ()

/-- UDP environment for the C4 counterexample: the A lookup answers with
1.2.3.4 and every other exchange answers with a single TXT record whose
chunk list is empty. -/
def exchC4x : Exchanger := fun addr _q =>
  if addr = "8.8.8.8:53" then .ok [⟨.A "1.2.3.4"⟩] else .ok [⟨.TXT []⟩]

/-- A maximally permissive UTF-8 decoder: every chunk decodes. -/
def utf8All : List Nat → Option String := fun _ => some ""

/-- A maximally permissive IP parser: every string parses. -/
def parseAll : String → Option String := fun s => some s

/-- UDP environment for the C4 witness: the A lookup answers with 1.2.3.4
and every other exchange answers with one TXT record with chunk `[55]`. -/
def exchC4w : Exchanger := fun addr _q =>
  if addr = "8.8.8.8:53" then .ok [⟨.A "1.2.3.4"⟩] else .ok [⟨.TXT [[55]]⟩]

def utf8C4w : List Nat → Option String := fun bytes =>
  if bytes = [55] then some "7.7.7.7" else none

def parseIpC4w : String → Option String := fun s =>
  if s = "7.7.7.7" then some "7.7.7.7" else none

/-- UDP environment for the C10 witness: the TXT response holds a first
TXT record with an empty chunk list, then a TXT record with chunk `[56]`. -/
def exchC10 : Exchanger := fun addr _q =>
  if addr = "8.8.8.8:53" then .ok [⟨.A "1.2.3.4"⟩]
  else .ok [⟨.TXT []⟩, ⟨.TXT [[56]]⟩]

def utf8C10 : List Nat → Option String := fun bytes =>
  if bytes = [56] then some "8.8.8.8" else none

def parseIpC10 : String → Option String := fun s =>
  if s = "8.8.8.8" then some "8.8.8.8" else none

/-- Subprocess environment for the C7 witness: the utility exits 0 printing
a quoted IP followed by a newline. -/
def runC7 : DigInvocation → Except String (Nat × Option String) :=
  fun _ => .ok (0, some "\"7.7.7.7\"\n")

/-- UDP environment for the C7 witness, agreeing with `runC7` on the
service-reported address text. -/
def exchC7 : Exchanger := fun addr _q =>
  if addr = "8.8.8.8:53" then .ok [⟨.A "1.2.3.4"⟩] else .ok [⟨.TXT [[57]]⟩]

def utf8C7 : List Nat → Option String := fun bytes =>
  if bytes = [57] then some "7.7.7.7" else none

/-! ### Helper lemmas -/

theorem unchangedCheck_hit (wan : String) : unchangedCheck (.ok wan) wan = true := by
  simp [unchangedCheck]

theorem unchangedCheck_of_miss {env : MainEnv} {wan : String} (h : cacheMiss env wan) :
    unchangedCheck env.cacheRead wan = false := by
  unfold cacheMiss at h
  unfold unchangedCheck
  cases hcr : env.cacheRead with
  | error e => rfl
  | ok s => rw [hcr] at h; simp_all

theorem set_all_ok (put : PutEnv) (l : List CloudflareDnsRecord)
    (h : ∀ r ∈ l, (put r).isOk) :
    set_cloudflare_dns_records l put = (.ok (), l) := by
  induction l with
  | nil => rfl
  | cons record rest ih =>
    have hr := h record (List.mem_cons_self _ _)
    cases hput : put record with
    | error e => rw [hput] at hr; simp [Except.isOk, Except.toBool] at hr
    | ok v =>
      have hrest := ih fun r hm => h r (List.mem_cons_of_mem _ hm)
      simp [set_cloudflare_dns_records, hput, hrest]

theorem set_prefix_error (put : PutEnv) (bad : CloudflareDnsRecord) (e : String)
    (hbad : put bad = .error e) (pre post : List CloudflareDnsRecord)
    (hpre : ∀ r ∈ pre, (put r).isOk) :
    set_cloudflare_dns_records (pre ++ bad :: post) put = (.error e, pre ++ [bad]) := by
  induction pre with
  | nil => simp [set_cloudflare_dns_records, hbad]
  | cons record rest ih =>
    have hr := hpre record (List.mem_cons_self _ _)
    cases hput : put record with
    | error e2 => rw [hput] at hr; simp [Except.isOk, Except.toBool] at hr
    | ok v =>
      have hrest := ih fun r hm => hpre r (List.mem_cons_of_mem _ hm)
      simp [set_cloudflare_dns_records, hput, hrest]

theorem set_trace_take (put : PutEnv) (l : List CloudflareDnsRecord) :
    ∃ k, (set_cloudflare_dns_records l put).2 = l.take k := by
  induction l with
  | nil => exact ⟨0, rfl⟩
  | cons record rest ih =>
    cases hput : put record with
    | error e => exact ⟨1, by simp [set_cloudflare_dns_records, hput]⟩
    | ok v =>
      obtain ⟨k, hk⟩ := ih
      exact ⟨k + 1, by simp [set_cloudflare_dns_records, hput, hk]⟩

theorem head_filterMap_find {α β : Type} (f : α → Option β) (l : List α) :
    (l.filterMap f).head? = (l.find? fun x => (f x).isSome).bind f := by
  induction l with
  | nil => rfl
  | cons x xs ih =>
    cases hf : f x with
    | none => simp [List.filterMap_cons, hf, List.find?, ih]
    | some b => simp [List.filterMap_cons, hf, List.find?]

theorem updatePush_updatesIssued (updated : List CloudflareDnsRecord)
    (env : MainEnv) (wan : String) :
    (updatePush updated env wan).2.updatesIssued
      = (set_cloudflare_dns_records updated env.put).2 := by
  unfold updatePush
  rcases hset : set_cloudflare_dns_records updated env.put with ⟨res, issued⟩
  cases res with
  | error e => rfl
  | ok v => cases env.cacheWrite <;> rfl

theorem updatesIssued_take (env : MainEnv) (wan : String) (config : Config)
    (rs : List CloudflareDnsRecord)
    (hw : env.wanIp = .ok wan) (hc : env.configLoad = .ok config)
    (hl : env.listResponse = .ok rs) :
    ∃ k, (_main env).2.updatesIssued
      = ((rs.filter fun r => r.comment == some config.ddns_comment).map
          fun r => { r with content := wan }).take k := by
  unfold _main
  rw [hw]
  by_cases hchk : unchangedCheck env.cacheRead wan
  · exact ⟨0, by simp [hchk]⟩
  · simp only [hchk, if_false, Bool.false_eq_true]
    unfold updateRun
    rw [hc, hl]
    simp only [get_cloudflare_ddns_records]
    rw [updatePush_updatesIssued]
    exact set_trace_take env.put _

theorem updateRun_configOpened (env : MainEnv) (wan : String) :
    (updateRun env wan).2.configOpened = true := by
  unfold updateRun updatePush
  repeat' split
  all_goals rfl

/-! ### Claim theorems -/

/-- C2: when the WAN IP resolves and the cache file is readable with its
entire text string-equal to the resolved IP's text, the run exits 0 and the
provider client is never invoked: no list request, no update request, no
cache write (and config.json is not even opened). -/
theorem C2_unchanged_ip_noop (env : MainEnv) (wan s : String)
    (hw : env.wanIp = .ok wan) (hr : env.cacheRead = .ok s) (hs : s = wan) :
    main env = (0, ⟨false, false, [], none⟩) := by
  subst hs
  simp [main, _main, unchangedCheck, hw, hr]

/-- C2 witness: the theorem applied at the concrete environment `envC2`. -/
theorem C2_unchanged_ip_noop_witness :
    envC2.wanIp = .ok "1.2.3.4" ∧ envC2.cacheRead = .ok "1.2.3.4"
      ∧ main envC2 = (0, ⟨false, false, [], none⟩) :=
  ⟨rfl, rfl, C2_unchanged_ip_noop envC2 "1.2.3.4" "1.2.3.4" rfl rfl rfl⟩

/-- C9: on an unchanged-IP run the config file is never opened: the run
exits 0, its trace records no config open, the run's outcome does not
depend on the config-load outcome at all, and, in general, any run that
opens the config file was not a cache-hit run. -/
theorem C9_config_unread_when_unchanged (env : MainEnv) (wan : String)
    (hw : env.wanIp = .ok wan) (hr : env.cacheRead = .ok wan) :
    (main env).1 = 0
    ∧ (_main env).2.configOpened = false
    ∧ (∀ c1 c2 : Except String Config,
        _main { env with configLoad := c1 } = _main { env with configLoad := c2 })
    ∧ (∀ env2 : MainEnv, (_main env2).2.configOpened = true → ¬ cacheHit env2) := by
  refine ⟨?_, ?_, ?_, ?_⟩
  · simp [main, _main, unchangedCheck, hw, hr]
  · simp [_main, unchangedCheck, hw, hr]
  · intro c1 c2
    simp [_main, unchangedCheck, hw, hr]
  · intro env2 h hhit
    unfold cacheHit at hhit
    cases hw2 : env2.wanIp with
    | error e =>
      rw [hw2] at hhit
      cases hr2 : env2.cacheRead <;> rw [hr2] at hhit <;> exact hhit
    | ok w =>
      cases hr2 : env2.cacheRead with
      | error e => rw [hw2, hr2] at hhit; exact hhit
      | ok s =>
        rw [hw2, hr2] at hhit
        have hsw : s = w := hhit
        subst hsw
        simp [_main, unchangedCheck, hw2, hr2] at h

/-- C9 witness: the theorem applied at the concrete environment `envC2`,
whose config load is poisoned to fail if ever reached. -/
theorem C9_config_unread_when_unchanged_witness :
    envC2.configLoad = .error "config poisoned"
      ∧ (main envC2).1 = 0 ∧ (_main envC2).2.configOpened = false :=
  ⟨rfl, (C9_config_unread_when_unchanged envC2 "1.2.3.4" rfl rfl).1,
    (C9_config_unread_when_unchanged envC2 "1.2.3.4" rfl rfl).2.1⟩

/-- C5: a failed cache read is never propagated: the run's outcome is
identical for every cache-read error value (in particular it equals the
absent-cache first-run behaviour), and the run proceeds to the update path
(config.json is opened), for every resolved IP value. -/
theorem C5_cache_read_failure_tolerated (env : MainEnv) (wan e : String)
    (hw : env.wanIp = .ok wan) (hr : env.cacheRead = .error e) :
    (∀ e2 : String, _main env = _main { env with cacheRead := .error e2 })
    ∧ (_main env).2.configOpened = true := by
  have h1 : unchangedCheck env.cacheRead wan = false := by
    simp [unchangedCheck, hr]
  constructor
  · intro e2
    have h2 : unchangedCheck (Except.error e2 : Except String String) wan = false := by
      simp [unchangedCheck]
    simp only [_main, hw, h1, h2, Bool.false_eq_true, if_false]
    rfl
  · simp [_main, hw, h1, updateRun_configOpened]

/-- C5 witness: the theorem applied at the concrete environment `envC5`,
whose cache read fails with a permission error. -/
theorem C5_cache_read_failure_tolerated_witness :
    envC5.cacheRead = .error "permission denied"
      ∧ (_main envC5).2.configOpened = true :=
  ⟨rfl, (C5_cache_read_failure_tolerated envC5 "203.0.113.7" "permission denied"
      rfl rfl).2⟩

/-- C1: the record listing keeps exactly the records whose comment field is
present and equals the configured marker (absent or different comments are
excluded), and every update request a run issues is for a content-rewritten
copy of a record of the listing whose comment equals the marker. -/
theorem C1_marker_filter_guard (config : Config) (rs : List CloudflareDnsRecord)
    (env : MainEnv) (wan : String)
    (hw : env.wanIp = .ok wan) (hc : env.configLoad = .ok config)
    (hl : env.listResponse = .ok rs) :
    get_cloudflare_ddns_records config (.ok rs)
        = .ok (rs.filter fun r => r.comment == some config.ddns_comment)
    ∧ (∀ r : CloudflareDnsRecord,
        r ∈ rs.filter (fun r => r.comment == some config.ddns_comment)
          ↔ r ∈ rs ∧ r.comment = some config.ddns_comment)
    ∧ (∀ r ∈ (_main env).2.updatesIssued,
        r.comment = some config.ddns_comment
          ∧ ∃ r0 ∈ rs, r0.comment = some config.ddns_comment
              ∧ r = { r0 with content := wan }) := by
  refine ⟨rfl, ?_, ?_⟩
  · intro r
    simp [List.mem_filter]
  · intro r hr
    obtain ⟨k, hk⟩ := updatesIssued_take env wan config rs hw hc hl
    rw [hk] at hr
    have hr2 := List.take_subset k _ hr
    rw [List.mem_map] at hr2
    obtain ⟨r0, hr0mem, hr0eq⟩ := hr2
    rw [List.mem_filter] at hr0mem
    obtain ⟨hmem, hcomm⟩ := hr0mem
    have hcomm2 : r0.comment = some config.ddns_comment := by simpa using hcomm
    refine ⟨?_, r0, hmem, hcomm2, hr0eq.symm⟩
    rw [← hr0eq]
    exact hcomm2

/-- C1 witness: the theorem applied at the concrete environment `envC1`,
whose listing mixes a marked record, a differently-commented one and an
uncommented one. -/
theorem C1_marker_filter_guard_witness :
    envC1.listResponse = .ok [recMatch, recOther, recNoComment]
    ∧ (∀ r : CloudflareDnsRecord,
        r ∈ [recMatch, recOther, recNoComment].filter
            (fun r => r.comment == some cfgW.ddns_comment)
          ↔ r ∈ [recMatch, recOther, recNoComment]
              ∧ r.comment = some cfgW.ddns_comment)
    ∧ (∀ r ∈ (_main envC1).2.updatesIssued,
        r.comment = some cfgW.ddns_comment
          ∧ ∃ r0 ∈ [recMatch, recOther, recNoComment],
              r0.comment = some cfgW.ddns_comment
                ∧ r = { r0 with content := "203.0.113.7" }) :=
  ⟨rfl,
    (C1_marker_filter_guard cfgW [recMatch, recOther, recNoComment] envC1
      "203.0.113.7" rfl rfl rfl).2.1,
    (C1_marker_filter_guard cfgW [recMatch, recOther, recNoComment] envC1
      "203.0.113.7" rfl rfl rfl).2.2⟩

/-- C3: updates are issued sequentially in list order, one PUT per filtered
record; when the PUT of one record fails, the run errors out with exit code
1, the records before it (and it alone) have had requests issued, nothing
after it is attempted, and the cache file is not written. -/
theorem C3_sequential_failure_no_cache_write (env : MainEnv) (wan e : String)
    (config : Config) (rs pre post : List CloudflareDnsRecord)
    (bad : CloudflareDnsRecord)
    (hw : env.wanIp = .ok wan) (hm : cacheMiss env wan)
    (hc : env.configLoad = .ok config) (hl : env.listResponse = .ok rs)
    (hsplit : ((rs.filter fun r => r.comment == some config.ddns_comment).map
        fun r => { r with content := wan }) = pre ++ bad :: post)
    (hpre : ∀ r ∈ pre, (env.put r).isOk) (hbad : env.put bad = .error e) :
    _main env = (.error e, ⟨true, true, pre ++ [bad], none⟩)
    ∧ (main env).1 = 1 := by
  have hchk := unchangedCheck_of_miss hm
  have hset := set_prefix_error env.put bad e hbad pre post hpre
  have h1 : _main env = (.error e, ⟨true, true, pre ++ [bad], none⟩) := by
    simp only [_main, hw, hchk, Bool.false_eq_true, if_false, updateRun, hc, hl,
      get_cloudflare_ddns_records]
    unfold updatePush
    rw [hsplit, hset]
  exact ⟨h1, by simp [main, h1]⟩

/-- C3 witness: the theorem applied at the concrete environment `envC3`,
where the PUT of the second of three marked records fails. -/
theorem C3_sequential_failure_no_cache_write_witness :
    envC3.put { recMatch2 with content := "203.0.113.7" } = .error "update failed"
    ∧ _main envC3 = (.error "update failed",
        ⟨true, true,
          [{ recMatch with content := "203.0.113.7" },
            { recMatch2 with content := "203.0.113.7" }], none⟩)
    ∧ (main envC3).1 = 1 :=
  ⟨rfl,
    (C3_sequential_failure_no_cache_write envC3 "203.0.113.7" "update failed" cfgW
      [recMatch, recMatch2, recMatch3]
      [{ recMatch with content := "203.0.113.7" }]
      [{ recMatch3 with content := "203.0.113.7" }]
      { recMatch2 with content := "203.0.113.7" }
      rfl (by decide) rfl rfl (by decide) (by decide) rfl).1,
    (C3_sequential_failure_no_cache_write envC3 "203.0.113.7" "update failed" cfgW
      [recMatch, recMatch2, recMatch3]
      [{ recMatch with content := "203.0.113.7" }]
      [{ recMatch3 with content := "203.0.113.7" }]
      { recMatch2 with content := "203.0.113.7" }
      rfl (by decide) rfl rfl (by decide) (by decide) rfl).2⟩

/-- C6: the local mutation before the update requests changes only the
content field — id, name, comment, proxied, ttl and type are unchanged and
content becomes the resolved IP's text — and the bodies of the issued
update requests are exactly (a prefix of) those full mutated record
objects. -/
theorem C6_content_only_mutation (env : MainEnv) (wan : String) (config : Config)
    (rs : List CloudflareDnsRecord)
    (hw : env.wanIp = .ok wan) (hc : env.configLoad = .ok config)
    (hl : env.listResponse = .ok rs) :
    (∀ r : CloudflareDnsRecord,
      ({ r with content := wan } : CloudflareDnsRecord).id = r.id
      ∧ ({ r with content := wan } : CloudflareDnsRecord).name = r.name
      ∧ ({ r with content := wan } : CloudflareDnsRecord).comment = r.comment
      ∧ ({ r with content := wan } : CloudflareDnsRecord).proxied = r.proxied
      ∧ ({ r with content := wan } : CloudflareDnsRecord).ttl = r.ttl
      ∧ ({ r with content := wan } : CloudflareDnsRecord).type = r.type
      ∧ ({ r with content := wan } : CloudflareDnsRecord).content = wan)
    ∧ (∃ k, (_main env).2.updatesIssued
        = ((rs.filter fun r => r.comment == some config.ddns_comment).map
            fun r => { r with content := wan }).take k) :=
  ⟨fun _ => ⟨rfl, rfl, rfl, rfl, rfl, rfl, rfl⟩,
    updatesIssued_take env wan config rs hw hc hl⟩

/-- C6 witness: the theorem applied at the concrete environment `envC1`. -/
theorem C6_content_only_mutation_witness :
    ({ recMatch with content := "203.0.113.7" } : CloudflareDnsRecord).comment
        = recMatch.comment
    ∧ (∃ k, (_main envC1).2.updatesIssued
        = (([recMatch, recOther, recNoComment].filter
              fun r => r.comment == some cfgW.ddns_comment).map
            fun r => { r with content := "203.0.113.7" }).take k) :=
  ⟨(C6_content_only_mutation envC1 "203.0.113.7" cfgW
      [recMatch, recOther, recNoComment] rfl rfl rfl).1 recMatch |>.2.2.1,
    (C6_content_only_mutation envC1 "203.0.113.7" cfgW
      [recMatch, recOther, recNoComment] rfl rfl rfl).2⟩

/-- C8: when the IP changed (or no cache exists) and no listed record's
comment equals the marker, the update step succeeds vacuously: zero update
requests, the cache file is still overwritten with the new IP text, the run
exits 0 — and any later run resolving the same IP with that cache content
is a no-op. -/
theorem C8_vacuous_update_writes_cache (env : MainEnv) (wan : String)
    (config : Config) (rs : List CloudflareDnsRecord)
    (hw : env.wanIp = .ok wan) (hm : cacheMiss env wan)
    (hc : env.configLoad = .ok config) (hl : env.listResponse = .ok rs)
    (hnone : ∀ r ∈ rs, ¬ r.comment = some config.ddns_comment)
    (hwr : env.cacheWrite = .ok ()) :
    main env = (0, ⟨true, true, [], some wan⟩)
    ∧ (∀ env2 : MainEnv, env2.wanIp = .ok wan → env2.cacheRead = .ok wan →
        main env2 = (0, ⟨false, false, [], none⟩)) := by
  have hchk := unchangedCheck_of_miss hm
  have hfilter : rs.filter (fun r => r.comment == some config.ddns_comment) = [] := by
    rw [List.filter_eq_nil_iff]
    intro r hrm
    simpa using hnone r hrm
  constructor
  · simp only [main, _main, hw, hchk, Bool.false_eq_true, if_false, updateRun, hc, hl,
      get_cloudflare_ddns_records, hfilter, List.map_nil, updatePush,
      set_cloudflare_dns_records, hwr]
  · intro env2 hw2 hr2
    simp [main, _main, unchangedCheck, hw2, hr2]

/-- C8 witness: the theorem applied at the concrete environment `envC8`,
whose listing has only a differently-commented and an uncommented record
and whose PUT environment is poisoned to fail if ever invoked. -/
theorem C8_vacuous_update_writes_cache_witness :
    envC8.listResponse = .ok [recOther, recNoComment]
    ∧ main envC8 = (0, ⟨true, true, [], some "203.0.113.7"⟩) :=
  ⟨rfl,
    (C8_vacuous_update_writes_cache envC8 "203.0.113.7" cfgW [recOther, recNoComment]
      rfl (by decide) rfl rfl (by decide) rfl).1⟩

/-- C4 counterexample: an environment in which both exchanges complete, the
first response holds an A record, the second response holds a TXT-type
record (with an empty chunk list), the UTF-8 decoder accepts everything and
the IP parser accepts everything — none of the claim's failure conditions
holds — yet the resolver fails with the no-TXT-record error, because it
only accepts TXT answers whose chunk list is non-empty.  So the resolver
does not take "the first TXT-type answer". -/
theorem C4_counterexample_empty_chunk_txt :
    exchC4x "8.8.8.8:53" nsQuery = .ok [⟨.A "1.2.3.4"⟩]
    ∧ firstA [⟨.A "1.2.3.4"⟩] = some "1.2.3.4"
    ∧ exchC4x ("1.2.3.4" ++ ":53") txtQuery = .ok [⟨.TXT []⟩]
    ∧ hasTxtAnswer [⟨.TXT []⟩] = true
    ∧ (wan_ip exchC4x utf8All parseAll).1
        = .error "No TXT record found for o-o.myaddr.1.google.com" :=
  ⟨rfl, rfl, rfl, rfl, rfl⟩

/-- C4 (amended): the resolver sends an A query for ns1.google.com to
8.8.8.8:53 and takes the first A-type answer's IP; it then sends a TXT
query for o-o.myaddr.1.google.com to that IP on port 53 and takes the first
TXT-type answer whose chunk list is non-empty and whose last chunk decodes
as UTF-8, and parses that text as an IP literal; it fails exactly when an
exchange cannot be completed, the first response has no A record, the
second response has no such decodable TXT answer, or the text does not
parse as an IP address. -/
theorem C4_resolver_characterised (exch : Exchanger)
    (utf8 : List Nat → Option String) {α : Type} (parseIp : String → Option α) :
    (wan_ip exch utf8 parseIp).2.head? = some ("8.8.8.8:53", nsQuery)
    ∧ nsQuery = ⟨[⟨"ns1.google.com", QType.A⟩]⟩
    ∧ txtQuery = ⟨[⟨"o-o.myaddr.1.google.com", QType.TXT⟩]⟩
    ∧ (∀ ans : List Answer,
        firstA ans = (ans.find? fun a => (aValue a).isSome).bind aValue)
    ∧ (∀ ans : List Answer,
        firstTxt utf8 ans
          = (ans.find? fun a => (txtValue utf8 a).isSome).bind (txtValue utf8))
    ∧ (∀ e, exch "8.8.8.8:53" nsQuery = .error e →
        wan_ip exch utf8 parseIp = (.error e, [("8.8.8.8:53", nsQuery)]))
    ∧ (∀ ans1, exch "8.8.8.8:53" nsQuery = .ok ans1 → firstA ans1 = none →
        wan_ip exch utf8 parseIp
          = (.error "No A record found for ns1.google.com", [("8.8.8.8:53", nsQuery)]))
    ∧ (∀ ans1 nsip, exch "8.8.8.8:53" nsQuery = .ok ans1 → firstA ans1 = some nsip →
        (wan_ip exch utf8 parseIp).2
            = [("8.8.8.8:53", nsQuery), (nsip ++ ":53", txtQuery)]
        ∧ (∀ e, exch (nsip ++ ":53") txtQuery = .error e →
            (wan_ip exch utf8 parseIp).1 = .error e)
        ∧ (∀ ans2, exch (nsip ++ ":53") txtQuery = .ok ans2 →
            (firstTxt utf8 ans2 = none →
              (wan_ip exch utf8 parseIp).1
                = .error "No TXT record found for o-o.myaddr.1.google.com")
            ∧ (∀ s, firstTxt utf8 ans2 = some s → parseIp s = none →
                (wan_ip exch utf8 parseIp).1
                  = .error ("Error parsing ip from dig: " ++ s))
            ∧ (∀ s ip, firstTxt utf8 ans2 = some s → parseIp s = some ip →
                (wan_ip exch utf8 parseIp).1 = .ok ip))) := by
  refine ⟨?_, rfl, rfl, ?_, ?_, ?_, ?_, ?_⟩
  · unfold wan_ip
    repeat' split
    all_goals rfl
  · intro ans
    unfold firstA
    exact head_filterMap_find aValue ans
  · intro ans
    unfold firstTxt
    exact head_filterMap_find (txtValue utf8) ans
  · intro e h
    simp [wan_ip, h]
  · intro ans1 h h0
    simp [wan_ip, h, h0]
  · intro ans1 nsip h hA
    refine ⟨?_, ?_, ?_⟩
    · simp only [wan_ip, h, hA]
      repeat' split
      all_goals rfl
    · intro e h2
      simp [wan_ip, h, hA, h2]
    · intro ans2 h2
      refine ⟨?_, ?_, ?_⟩
      · intro hT
        simp [wan_ip, h, hA, h2, hT]
      · intro s hT hp
        simp [wan_ip, h, hA, h2, hT, hp]
      · intro s ip hT hp
        simp [wan_ip, h, hA, h2, hT, hp]

/-- C4 witness: the amended theorem applied at the concrete environments
`exchC4w`, `utf8C4w`, `parseIpC4w`, where the TXT answer's only chunk
decodes to 7.7.7.7. -/
theorem C4_resolver_characterised_witness :
    (wan_ip exchC4w utf8C4w parseIpC4w).1 = .ok "7.7.7.7"
    ∧ (wan_ip exchC4w utf8C4w parseIpC4w).2
        = [("8.8.8.8:53", nsQuery), ("1.2.3.4" ++ ":53", txtQuery)] := by
  have h := C4_resolver_characterised exchC4w utf8C4w parseIpC4w
  obtain ⟨-, -, -, -, -, -, -, h8⟩ := h
  obtain ⟨htr, -, h8c⟩ := h8 [⟨.A "1.2.3.4"⟩] "1.2.3.4" rfl rfl
  obtain ⟨-, -, hok⟩ := h8c [⟨.TXT [[55]]⟩] rfl
  exact ⟨hok "7.7.7.7" "7.7.7.7" rfl rfl, htr⟩

/-- C10: a TXT-type answer with an empty chunk list, or whose last chunk is
not valid UTF-8, is skipped rather than fatal: the resolver uses the first
TXT answer with a UTF-8-decodable last chunk, and reports the
no-TXT-record error exactly when no such answer exists. -/
theorem C10_bad_txt_answers_skipped (utf8 : List Nat → Option String)
    (bads rest : List Answer) (good : Answer) (s : String)
    (hb : ∀ a ∈ bads, txtValue utf8 a = none)
    (hg : txtValue utf8 good = some s)
    {α : Type} (exch : Exchanger) (parseIp : String → Option α)
    (ans1 : List Answer) (nsip : String)
    (h1 : exch "8.8.8.8:53" nsQuery = .ok ans1)
    (hA : firstA ans1 = some nsip)
    (h2 : exch (nsip ++ ":53") txtQuery = .ok (bads ++ good :: rest)) :
    firstTxt utf8 (bads ++ good :: rest) = some s
    ∧ (wan_ip exch utf8 parseIp).1
        = (match parseIp s with
           | none => .error ("Error parsing ip from dig: " ++ s)
           | some ip => .ok ip)
    ∧ (∀ answers : List Answer, (∀ a ∈ answers, txtValue utf8 a = none) →
        firstTxt utf8 answers = none)
    ∧ (∀ exch2 : Exchanger, ∀ allBad : List Answer,
        exch2 "8.8.8.8:53" nsQuery = .ok ans1 →
        exch2 (nsip ++ ":53") txtQuery = .ok allBad →
        (∀ a ∈ allBad, txtValue utf8 a = none) →
        (wan_ip exch2 utf8 parseIp).1
          = .error "No TXT record found for o-o.myaddr.1.google.com") := by
  have hbadsnil : bads.filterMap (txtValue utf8) = [] :=
    List.filterMap_eq_nil_iff.mpr hb
  have hfirst : firstTxt utf8 (bads ++ good :: rest) = some s := by
    simp [firstTxt, List.filterMap_append, hbadsnil, List.filterMap_cons, hg]
  refine ⟨hfirst, ?_, ?_, ?_⟩
  · simp only [wan_ip, h1, hA, h2, hfirst]
    cases parseIp s <;> rfl
  · intro answers hall
    simp [firstTxt, List.filterMap_eq_nil_iff.mpr hall]
  · intro exch2 allBad h1b h2b hall
    have hnone : firstTxt utf8 allBad = none := by
      simp [firstTxt, List.filterMap_eq_nil_iff.mpr hall]
    simp [wan_ip, h1b, hA, h2b, hnone]

/-- C10 witness: the theorem applied at the concrete environment `exchC10`,
whose TXT response lists an empty-chunk TXT answer before a decodable
one. -/
theorem C10_bad_txt_answers_skipped_witness :
    firstTxt utf8C10 [⟨.TXT []⟩, ⟨.TXT [[56]]⟩] = some "8.8.8.8"
    ∧ (wan_ip exchC10 utf8C10 parseIpC10).1 = .ok "8.8.8.8" := by
  have h := C10_bad_txt_answers_skipped utf8C10 [⟨.TXT []⟩] [] ⟨.TXT [[56]]⟩
    "8.8.8.8" (by decide) rfl exchC10 parseIpC10 [⟨.A "1.2.3.4"⟩]
    "1.2.3.4" rfl rfl rfl
  exact ⟨h.1, by rw [h.2.1]; rfl⟩

/-- C7: Strategy A (external resolver subprocess, modelled from the spec as
`wan_ip_dig`) and Strategy B (the in-process client `wan_ip`) are
interchangeable implementations of the same capability: whenever their
environments report the same service-returned address text, the two
strategies return the same result, each independently producing the full
resolved address. -/
theorem C7_strategies_interchangeable {α : Type} (exch : Exchanger)
    (utf8 : List Nat → Option String)
    (run : DigInvocation → Except String (Nat × Option String))
    (parseIp : String → Option α) (s out nsip : String)
    (ans1 ans2 : List Answer)
    (hrun : run digInvocation = .ok (0, some out))
    (hstrip : stripQuoted out = s)
    (h1 : exch "8.8.8.8:53" nsQuery = .ok ans1)
    (hA : firstA ans1 = some nsip)
    (h2 : exch (nsip ++ ":53") txtQuery = .ok ans2)
    (hT : firstTxt utf8 ans2 = some s) :
    wan_ip_dig run parseIp = (wan_ip exch utf8 parseIp).1 := by
  simp only [wan_ip_dig, hrun, hstrip, wan_ip, h1, hA, h2, hT]
  simp only [ne_eq, not_true_eq_false, if_false, ite_false]
  cases parseIp s <;> rfl

/-- C7 witness: the theorem applied at the concrete environments `runC7`
(the subprocess prints a quoted 7.7.7.7) and `exchC7` (the TXT answer's
chunk decodes to 7.7.7.7), with a parser accepting that literal. -/
theorem C7_strategies_interchangeable_witness :
    runC7 digInvocation = .ok (0, some "\"7.7.7.7\"\n")
    ∧ wan_ip_dig runC7 parseIpC4w = (wan_ip exchC7 utf8C7 parseIpC4w).1
    ∧ wan_ip_dig runC7 parseIpC4w = .ok "7.7.7.7" := by
  have h := C7_strategies_interchangeable exchC7 utf8C7 runC7 parseIpC4w
    "7.7.7.7" "\"7.7.7.7\"\n" "1.2.3.4" [⟨.A "1.2.3.4"⟩] [⟨.TXT [[57]]⟩]
    rfl rfl rfl rfl rfl rfl
  exact ⟨rfl, h, h.trans rfl⟩

end Ddns

